import Mathlib

/-!
Verification of the shottool LUT synthesizer and tone-curve renderer.

The JavaScript source (frontend ColorPanel component, `downloadLUT` and
`generateCurvePath`) is shallowly embedded here: JavaScript numbers are
modelled as exact rationals (ℚ), strings as Lean `String`, and the
imperative triple loop of `downloadLUT` as a functional list construction.
Division by zero in ℚ yields 0 (noted where it matters, at the one
degenerate tone-curve case where JavaScript would produce NaN).
-/

/-- Lowercase a string character by character; models
JavaScript `String.prototype.toLowerCase` for the ASCII labels used here. -/
def strToLower (s : String) : String := String.mk (s.data.map Char.toLower)

/-- `leadsWith pat l` is true when `pat` is an initial run of `l`. -/
def leadsWith : List Char → List Char → Bool
  | [], _ => true
  | _ :: _, [] => false
  | a :: as, b :: bs => a == b && leadsWith as bs

/-- `occursIn pat l` is true when `pat` occurs contiguously inside `l`. -/
def occursIn (pat : List Char) : List Char → Bool
  | [] => leadsWith pat []
  | c :: cs => leadsWith pat (c :: cs) || occursIn pat cs

/-- Models JavaScript `s.toLowerCase().includes(pat)` as used in
`downloadLUT` (the pattern is already lowercase in the source). -/
def strIncludes (s pat : String) : Bool := occursIn pat.data (strToLower s).data

/-- The color-grade record consumed by the ColorPanel component. The fields
mirror the object read by `downloadLUT` and the tone-curve rendering:
`toneCurve` is optional because the source guards it with `|| default`. -/
structure ColorEstimate where
  temperature : String
  contrast : String
  saturation : String
  shadows : String
  highlights : String
  palette : List String
  toneCurve : Option (List (ℚ × ℚ))

/-- The fallback curve `[[0, 0], [50, 50], [100, 100]]` from
`const toneCurve = color.toneCurve || [[0, 0], [50, 50], [100, 100]]`. -/
def defaultToneCurve : List (ℚ × ℚ) := [(0, 0), (50, 50), (100, 100)]

/-- The tone curve actually used by `downloadLUT` (JavaScript `||` picks the
default exactly when `color.toneCurve` is null/undefined). -/
def lutToneCurve (c : ColorEstimate) : List (ℚ × ℚ) :=
  c.toneCurve.getD defaultToneCurve

/-- The scan of adjacent control-point pairs inside `applyToneCurve`:
`for (let i = 0; i < toneCurve.length - 1; i++) { ... }` with the early
return on the first bracketing pair, falling through to `return value`. -/
def atcScan (v value : ℚ) : List (ℚ × ℚ) → ℚ
  | p :: q :: rest =>
      if p.1 ≤ v ∧ v ≤ q.1 then
        (p.2 + (v - p.1) / (q.1 - p.1) * (q.2 - p.2)) / 100
      else atcScan v value (q :: rest)
  | _ => value

/-- `applyToneCurve` from `downloadLUT`: rescale the luminance to `[0,100]`,
scan for a bracketing pair of control points, linearly interpolate there
(dividing by the segment width), otherwise return the input unchanged. -/
def applyToneCurve (toneCurve : List (ℚ × ℚ)) (value : ℚ) : ℚ :=
  atcScan (value * 100) value toneCurve

/-- The first adjacent pair of control points that brackets `v`, mirroring
the scan order of `applyToneCurve`. -/
def firstBracket (v : ℚ) : List (ℚ × ℚ) → Option ((ℚ × ℚ) × (ℚ × ℚ))
  | p :: q :: rest =>
      if p.1 ≤ v ∧ v ≤ q.1 then some (p, q) else firstBracket v (q :: rest)
  | _ => none

/-- `const isWarm = color.temperature?.toLowerCase().includes('warm')`. -/
def isWarm (c : ColorEstimate) : Bool := strIncludes c.temperature "warm"

/-- `const isCool = color.temperature?.toLowerCase().includes('cool')`. -/
def isCool (c : ColorEstimate) : Bool := strIncludes c.temperature "cool"

/-- `const hasTealShadows = color.shadows?.toLowerCase().includes('teal')`. -/
def hasTealShadows (c : ColorEstimate) : Bool := strIncludes c.shadows "teal"

/-- `const hasWarmHighlights = color.highlights?.toLowerCase().includes('warm')`. -/
def hasWarmHighlights (c : ColorEstimate) : Bool := strIncludes c.highlights "warm"

/-- Normalized grid coordinate `i / (size - 1)` (e.g. `rVal = r / (size - 1)`). -/
def gridCoord (size i : ℕ) : ℚ := (i : ℚ) / ((size : ℚ) - 1)

/-- `const luminance = 0.299 * rVal + 0.587 * gVal + 0.114 * bVal`. -/
def gridLuminance (size r g b : ℕ) : ℚ :=
  0.299 * gridCoord size r + 0.587 * gridCoord size g + 0.114 * gridCoord size b

/-- The denominator `(luminance || 0.001)` of the curve multiplier:
JavaScript `||` replaces the value by `0.001` exactly when it is `0`. -/
def lutDenom (size r g b : ℕ) : ℚ :=
  if gridLuminance size r g b = 0 then 0.001 else gridLuminance size r g b

/-- `const curveMultiplier = applyToneCurve(luminance) / (luminance || 0.001)`. -/
def curveMultiplier (tc : List (ℚ × ℚ)) (size r g b : ℕ) : ℚ :=
  applyToneCurve tc (gridLuminance size r g b) / lutDenom size r g b

/-- The tone-curve scaling step:
`rVal = Math.min(1, rVal * curveMultiplier)` and likewise for g and b. -/
def toneStage (tc : List (ℚ × ℚ)) (size r g b : ℕ) : ℚ × ℚ × ℚ :=
  (min 1 (gridCoord size r * curveMultiplier tc size r g b),
   min 1 (gridCoord size g * curveMultiplier tc size r g b),
   min 1 (gridCoord size b * curveMultiplier tc size r g b))

/-- The temperature-shift step of `downloadLUT`: warm boosts red (clamped)
and scales blue by 0.95; cool is the mirror image; otherwise no change. -/
def tempStage (warm cool : Bool) (v : ℚ × ℚ × ℚ) : ℚ × ℚ × ℚ :=
  if warm then (min 1 (v.1 * 1.05), v.2.1, v.2.2 * 0.95)
  else if cool then (v.1 * 0.95, v.2.1, min 1 (v.2.2 * 1.05))
  else v

/-- The shadow-tint step: below luminance 0.4, push green and blue up by an
amount proportional to `(0.4 - luminance) / 0.4`, clamped at 1. -/
def shadowStage (teal : Bool) (lum : ℚ) (v : ℚ × ℚ × ℚ) : ℚ × ℚ × ℚ :=
  if teal ∧ lum < 0.4 then
    (v.1,
     min 1 (v.2.1 + (0.4 - lum) / 0.4 * 0.03),
     min 1 (v.2.2 + (0.4 - lum) / 0.4 * 0.05))
  else v

/-- The highlight-warmth step: above luminance 0.6, push red up by an
amount proportional to `(luminance - 0.6) / 0.4`, clamped at 1. -/
def highlightStage (warmH : Bool) (lum : ℚ) (v : ℚ × ℚ × ℚ) : ℚ × ℚ × ℚ :=
  if warmH ∧ 0.6 < lum then
    (min 1 (v.1 + (lum - 0.6) / 0.4 * 0.03), v.2.1, v.2.2)
  else v

/-- One grid point of the LUT: the four sequential mutation steps of the
loop body of `downloadLUT`, composed in source order. -/
def lutEntry (c : ColorEstimate) (size r g b : ℕ) : ℚ × ℚ × ℚ :=
  highlightStage (hasWarmHighlights c) (gridLuminance size r g b)
    (shadowStage (hasTealShadows c) (gridLuminance size r g b)
      (tempStage (isWarm c) (isCool c)
        (toneStage (lutToneCurve c) size r g b)))

/-- The decimal digit character for `n % 10`. -/
def digitChar (n : ℕ) : Char := Char.ofNat (48 + n % 10)

/-- The six fractional digits of `n` (for `n < 10^6` this is the zero-padded
decimal numeral of `n`). -/
def pad6 (n : ℕ) : String :=
  String.mk [digitChar (n / 100000), digitChar (n / 10000), digitChar (n / 1000),
    digitChar (n / 100), digitChar (n / 10), digitChar n]

/-- Models JavaScript `Number.prototype.toFixed(6)` for the nonnegative
values emitted here: round to six decimals and print with exactly six
fractional digits. -/
def toFixed6 (q : ℚ) : String :=
  let n : ℕ := (round (q * 1000000)).toNat
  Nat.repr (n / 1000000) ++ "." ++ pad6 (n % 1000000)

/-- One data line of the LUT body (without its trailing newline):
``lutContent += `${rVal.toFixed(6)} ${gVal.toFixed(6)} ${bVal.toFixed(6)}\n` ``. -/
def lutLine (c : ColorEstimate) (size r g b : ℕ) : String :=
  toFixed6 (lutEntry c size r g b).1 ++ " " ++
    toFixed6 (lutEntry c size r g b).2.1 ++ " " ++
    toFixed6 (lutEntry c size r g b).2.2

/-- The data lines of the LUT in loop order: `b` outermost, then `g`,
then `r` innermost. -/
def lutLines (c : ColorEstimate) (size : ℕ) : List String :=
  (List.range size).flatMap (fun b =>
    (List.range size).flatMap (fun g =>
      (List.range size).map (fun r => lutLine c size r g b)))

/-- The LUT header emitted before the data lines. -/
def lutHeader (size : ℕ) : String :=
  "TITLE \"Shot Match - Generated LUT\"\n# Generated from image analysis\nLUT_3D_SIZE "
    ++ Nat.repr size ++ "\n\n"

/-- The full `.cube` text accumulated in `lutContent` by `downloadLUT`. -/
def downloadLUTContent (c : ColorEstimate) (size : ℕ) : String :=
  lutHeader size ++ String.join ((lutLines c size).map (fun l => l ++ "\n"))

/-- The fractional digits of `q ∈ [0,1)` in decimal, up to `fuel` places;
terminating decimals are produced exactly. -/
def fracDigits : ℕ → ℚ → List Char
  | 0, _ => []
  | fuel + 1, q =>
      if q = 0 then []
      else digitChar (⌊q * 10⌋).toNat :: fracDigits fuel (q * 10 - (⌊q * 10⌋ : ℚ))

/-- Decimal rendering of a nonnegative rational: integer part, then a dot
and the fractional digits when the value is not an integer. -/
def jsNumNonneg (q : ℚ) : String :=
  if q - (⌊q⌋ : ℚ) = 0 then Nat.repr (⌊q⌋).toNat
  else Nat.repr (⌊q⌋).toNat ++ "." ++ String.mk (fracDigits 20 (q - (⌊q⌋ : ℚ)))

/-- Models the JavaScript template-literal rendering of a number inside
the SVG path strings: integers print without a decimal point, other values
as a decimal expansion (exact for the terminating decimals that occur here). -/
def jsNumToString (q : ℚ) : String :=
  if q < 0 then "-" ++ jsNumNonneg (-q) else jsNumNonneg q

namespace CameraPanel

/-- The path-extension loop of `generateCurvePath` (CameraPanel.jsx copy):
`isFirst` tracks `i === 1`, `prev` is `svgPoints[i - 1]`, and the list
argument holds the remaining already-flipped points. -/
def curveTail (isFirst : Bool) (prev : ℚ × ℚ) : List (ℚ × ℚ) → String
  | [] => ""
  | curr :: rest =>
      (if isFirst then
        " Q " ++ jsNumToString ((prev.1 + curr.1) / 2) ++ " " ++ jsNumToString prev.2
          ++ ", " ++ jsNumToString curr.1 ++ " " ++ jsNumToString curr.2
      else
        " T " ++ jsNumToString curr.1 ++ " " ++ jsNumToString curr.2)
      ++ curveTail false curr rest

/-- `generateCurvePath` from CameraPanel.jsx: null/undefined or fewer than two
points fall back to the linear path; otherwise flip every y to SVG
coordinates, move to the first point and extend with Q/T segments.
The inner `[]` case is unreachable because the guard requires length ≥ 2. -/
def generateCurvePath : Option (List (ℚ × ℚ)) → String
  | none => "M 0 100 L 100 0"
  | some pts =>
      if pts.length < 2 then "M 0 100 L 100 0"
      else
        match pts with
        | [] => "M 0 100 L 100 0"
        | p :: rest =>
            "M " ++ jsNumToString p.1 ++ " " ++ jsNumToString (100 - p.2) ++
              curveTail true (p.1, 100 - p.2) (rest.map (fun pt => (pt.1, 100 - pt.2)))

end CameraPanel

namespace Part002

/-- The path-extension loop of `generateCurvePath` (src/unnamed/part_002 copy). -/
def curveTail (isFirst : Bool) (prev : ℚ × ℚ) : List (ℚ × ℚ) → String
  | [] => ""
  | curr :: rest =>
      (if isFirst then
        " Q " ++ jsNumToString ((prev.1 + curr.1) / 2) ++ " " ++ jsNumToString prev.2
          ++ ", " ++ jsNumToString curr.1 ++ " " ++ jsNumToString curr.2
      else
        " T " ++ jsNumToString curr.1 ++ " " ++ jsNumToString curr.2)
      ++ curveTail false curr rest

/-- `generateCurvePath` from src/unnamed/part_002, embedded separately from
the CameraPanel.jsx copy so their agreement is a theorem, not a definition. -/
def generateCurvePath : Option (List (ℚ × ℚ)) → String
  | none => "M 0 100 L 100 0"
  | some pts =>
      if pts.length < 2 then "M 0 100 L 100 0"
      else
        match pts with
        | [] => "M 0 100 L 100 0"
        | p :: rest =>
            "M " ++ jsNumToString p.1 ++ " " ++ jsNumToString (100 - p.2) ++
              curveTail true (p.1, 100 - p.2) (rest.map (fun pt => (pt.1, 100 - pt.2)))

end Part002

/-- The 6-decimal fixed-point token shape: some decimal digits, a dot,
then exactly six decimal digits (digits are the characters coded 48–57). -/
def sixDecShape (s : String) : Prop :=
  ∃ ip fp : List Char, s.data = ip ++ '.' :: fp ∧ ip ≠ [] ∧
    (∀ ch ∈ ip, 48 ≤ ch.toNat ∧ ch.toNat ≤ 57) ∧
    fp.length = 6 ∧ ∀ ch ∈ fp, 48 ≤ ch.toNat ∧ ch.toNat ≤ 57

/-- The default color grade shown by the panel (its `color` fallback object),
with the fallback tone curve made explicit; used to instantiate theorems. -/
def cWitA : ColorEstimate :=
  { temperature := "Warm", contrast := "Medium-High",
    saturation := "Slightly Desaturated", shadows := "Lifted, Teal tint",
    highlights := "Warm, Orange push",
    palette := ["#1a2634", "#3d4f5f", "#d4a574", "#f5e6d3", "#8b5a2b"],
    toneCurve := some [(0, 0), (50, 50), (100, 100)] }

/-- Like `cWitA` but with a different palette (a field `downloadLUT` ignores). -/
def cWitB : ColorEstimate :=
  { temperature := "Warm", contrast := "Medium-High",
    saturation := "Slightly Desaturated", shadows := "Lifted, Teal tint",
    highlights := "Warm, Orange push", palette := [],
    toneCurve := some [(0, 0), (50, 50), (100, 100)] }

/-- A neutral, untinted grade with the identity tone curve. -/
def cWitN : ColorEstimate :=
  { temperature := "Neutral", contrast := "Medium", saturation := "Low",
    shadows := "Lifted", highlights := "Bright", palette := [],
    toneCurve := some [(0, 0), (100, 100)] }

/-- Post-temperature triple of `cWitA` at the black corner of a size-17 grid. -/
def vtA : ℚ × ℚ × ℚ :=
  tempStage (isWarm cWitA) (isCool cWitA) (toneStage (lutToneCurve cWitA) 17 0 0 0)

/-- Post-shadow-tint triple of `cWitA` at the black corner. -/
def vsA : ℚ × ℚ × ℚ := shadowStage (hasTealShadows cWitA) (gridLuminance 17 0 0 0) vtA

/-- Post-highlight triple of `cWitA` at the black corner. -/
def vhA : ℚ × ℚ × ℚ := highlightStage (hasWarmHighlights cWitA) (gridLuminance 17 0 0 0) vsA

lemma atcScan_mem (v value : ℚ) (l : List (ℚ × ℚ))
    (hp : ∀ p ∈ l, 0 ≤ p.1 ∧ p.1 ≤ 100 ∧ 0 ≤ p.2 ∧ p.2 ≤ 100)
    (h0 : 0 ≤ value) (h1 : value ≤ 1) :
    0 ≤ atcScan v value l ∧ atcScan v value l ≤ 1 := by
  induction l with
  | nil => exact ⟨h0, h1⟩
  | cons p tail ih =>
    cases tail with
    | nil => exact ⟨h0, h1⟩
    | cons q rest =>
      simp only [atcScan]
      split
      case isTrue h =>
        obtain ⟨hp1, hp2, hp3, hp4⟩ := hp p (by simp)
        obtain ⟨hq1, hq2, hq3, hq4⟩ := hp q (by simp)
        rcases eq_or_lt_of_le (le_trans h.1 h.2 : p.1 ≤ q.1) with heq | hlt
        · have hd : q.1 - p.1 = 0 := by rw [← heq, sub_self]
          rw [hd, div_zero, zero_mul, add_zero]
          constructor
          · positivity
          · rw [div_le_one (by norm_num)]; linarith
        · have ht0 : 0 ≤ (v - p.1) / (q.1 - p.1) :=
            div_nonneg (by linarith [h.1]) (by linarith)
          have ht1 : (v - p.1) / (q.1 - p.1) ≤ 1 := by
            rw [div_le_one (by linarith)]; linarith [h.2]
          set t := (v - p.1) / (q.1 - p.1) with hdef
          constructor
          · have hnum : 0 ≤ p.2 + t * (q.2 - p.2) := by nlinarith
            positivity
          · rw [div_le_one (by norm_num)]; nlinarith
      case isFalse h =>
        exact ih (fun x hx => hp x (by simp [hx]))

lemma applyToneCurve_mem (tc : List (ℚ × ℚ)) (value : ℚ)
    (hp : ∀ p ∈ tc, 0 ≤ p.1 ∧ p.1 ≤ 100 ∧ 0 ≤ p.2 ∧ p.2 ≤ 100)
    (h0 : 0 ≤ value) (h1 : value ≤ 1) :
    0 ≤ applyToneCurve tc value ∧ applyToneCurve tc value ≤ 1 :=
  atcScan_mem _ _ _ hp h0 h1

lemma gridCoord_nonneg (size i : ℕ) (h2 : 2 ≤ size) : 0 ≤ gridCoord size i := by
  have : (2:ℚ) ≤ (size:ℚ) := by exact_mod_cast h2
  exact div_nonneg (Nat.cast_nonneg i) (by linarith)

lemma gridCoord_le_one (size i : ℕ) (h2 : 2 ≤ size) (hi : i < size) :
    gridCoord size i ≤ 1 := by
  have hs : (2:ℚ) ≤ (size:ℚ) := by exact_mod_cast h2
  have hi' : (i:ℚ) + 1 ≤ (size:ℚ) := by exact_mod_cast hi
  rw [gridCoord, div_le_one (by linarith)]
  linarith

lemma gridLuminance_nonneg (size r g b : ℕ) (h2 : 2 ≤ size) :
    0 ≤ gridLuminance size r g b := by
  have hr := gridCoord_nonneg size r h2
  have hg := gridCoord_nonneg size g h2
  have hb := gridCoord_nonneg size b h2
  rw [gridLuminance]
  nlinarith

lemma gridLuminance_le_one (size r g b : ℕ) (h2 : 2 ≤ size)
    (hr : r < size) (hg : g < size) (hb : b < size) :
    gridLuminance size r g b ≤ 1 := by
  have h1 := gridCoord_le_one size r h2 hr
  have h2' := gridCoord_le_one size g h2 hg
  have h3 := gridCoord_le_one size b h2 hb
  rw [gridLuminance]
  nlinarith

lemma lutDenom_pos (size r g b : ℕ) (h2 : 2 ≤ size) : 0 < lutDenom size r g b := by
  rw [lutDenom]
  split
  · norm_num
  · exact lt_of_le_of_ne (gridLuminance_nonneg size r g b h2) (Ne.symm (by assumption))

lemma curveMultiplier_nonneg (tc : List (ℚ × ℚ)) (size r g b : ℕ) (h2 : 2 ≤ size)
    (hr : r < size) (hg : g < size) (hb : b < size)
    (hp : ∀ p ∈ tc, 0 ≤ p.1 ∧ p.1 ≤ 100 ∧ 0 ≤ p.2 ∧ p.2 ≤ 100) :
    0 ≤ curveMultiplier tc size r g b := by
  rw [curveMultiplier]
  exact div_nonneg
    (applyToneCurve_mem tc _ hp (gridLuminance_nonneg size r g b h2)
      (gridLuminance_le_one size r g b h2 hr hg hb)).1
    (le_of_lt (lutDenom_pos size r g b h2))

lemma toneStage_mem (tc : List (ℚ × ℚ)) (size r g b : ℕ) (h2 : 2 ≤ size)
    (hr : r < size) (hg : g < size) (hb : b < size)
    (hp : ∀ p ∈ tc, 0 ≤ p.1 ∧ p.1 ≤ 100 ∧ 0 ≤ p.2 ∧ p.2 ≤ 100) :
    (0 ≤ (toneStage tc size r g b).1 ∧ (toneStage tc size r g b).1 ≤ 1) ∧
    (0 ≤ (toneStage tc size r g b).2.1 ∧ (toneStage tc size r g b).2.1 ≤ 1) ∧
    (0 ≤ (toneStage tc size r g b).2.2 ∧ (toneStage tc size r g b).2.2 ≤ 1) := by
  have hm := curveMultiplier_nonneg tc size r g b h2 hr hg hb hp
  refine ⟨⟨?_, min_le_left _ _⟩, ⟨?_, min_le_left _ _⟩, ⟨?_, min_le_left _ _⟩⟩ <;>
    exact le_min (by norm_num) (mul_nonneg (gridCoord_nonneg size _ h2) hm)

lemma tempStage_mem (warm cool : Bool) (v : ℚ × ℚ × ℚ)
    (h1 : 0 ≤ v.1 ∧ v.1 ≤ 1) (h2 : 0 ≤ v.2.1 ∧ v.2.1 ≤ 1) (h3 : 0 ≤ v.2.2 ∧ v.2.2 ≤ 1) :
    (0 ≤ (tempStage warm cool v).1 ∧ (tempStage warm cool v).1 ≤ 1) ∧
    (0 ≤ (tempStage warm cool v).2.1 ∧ (tempStage warm cool v).2.1 ≤ 1) ∧
    (0 ≤ (tempStage warm cool v).2.2 ∧ (tempStage warm cool v).2.2 ≤ 1) := by
  rw [tempStage]
  split
  · exact ⟨⟨le_min (by norm_num) (by nlinarith [h1.1]), min_le_left _ _⟩,
      h2, ⟨by nlinarith [h3.1], by nlinarith [h3.2]⟩⟩
  · split
    · exact ⟨⟨by nlinarith [h1.1], by nlinarith [h1.2]⟩, h2,
        ⟨le_min (by norm_num) (by nlinarith [h3.1]), min_le_left _ _⟩⟩
    · exact ⟨h1, h2, h3⟩

lemma shadowStage_mem (teal : Bool) (lum : ℚ) (v : ℚ × ℚ × ℚ)
    (h1 : 0 ≤ v.1 ∧ v.1 ≤ 1) (h2 : 0 ≤ v.2.1 ∧ v.2.1 ≤ 1) (h3 : 0 ≤ v.2.2 ∧ v.2.2 ≤ 1) :
    (0 ≤ (shadowStage teal lum v).1 ∧ (shadowStage teal lum v).1 ≤ 1) ∧
    (0 ≤ (shadowStage teal lum v).2.1 ∧ (shadowStage teal lum v).2.1 ≤ 1) ∧
    (0 ≤ (shadowStage teal lum v).2.2 ∧ (shadowStage teal lum v).2.2 ≤ 1) := by
  rw [shadowStage]
  split
  case isTrue h =>
    have ha : 0 ≤ (0.4 - lum) / 0.4 := div_nonneg (by linarith [h.2]) (by norm_num)
    exact ⟨h1, ⟨le_min (by norm_num) (by nlinarith [h2.1]), min_le_left _ _⟩,
      ⟨le_min (by norm_num) (by nlinarith [h3.1]), min_le_left _ _⟩⟩
  case isFalse h => exact ⟨h1, h2, h3⟩

lemma highlightStage_mem (warmH : Bool) (lum : ℚ) (v : ℚ × ℚ × ℚ)
    (h1 : 0 ≤ v.1 ∧ v.1 ≤ 1) (h2 : 0 ≤ v.2.1 ∧ v.2.1 ≤ 1) (h3 : 0 ≤ v.2.2 ∧ v.2.2 ≤ 1) :
    (0 ≤ (highlightStage warmH lum v).1 ∧ (highlightStage warmH lum v).1 ≤ 1) ∧
    (0 ≤ (highlightStage warmH lum v).2.1 ∧ (highlightStage warmH lum v).2.1 ≤ 1) ∧
    (0 ≤ (highlightStage warmH lum v).2.2 ∧ (highlightStage warmH lum v).2.2 ≤ 1) := by
  rw [highlightStage]
  split
  case isTrue h =>
    have ha : 0 ≤ (lum - 0.6) / 0.4 := div_nonneg (by linarith [h.2]) (by norm_num)
    exact ⟨⟨le_min (by norm_num) (by nlinarith [h1.1]), min_le_left _ _⟩, h2, h3⟩
  case isFalse h => exact ⟨h1, h2, h3⟩

lemma lutEntry_mem (c : ColorEstimate) (size r g b : ℕ) (h2 : 2 ≤ size)
    (hr : r < size) (hg : g < size) (hb : b < size)
    (hp : ∀ p ∈ lutToneCurve c, 0 ≤ p.1 ∧ p.1 ≤ 100 ∧ 0 ≤ p.2 ∧ p.2 ≤ 100) :
    (0 ≤ (lutEntry c size r g b).1 ∧ (lutEntry c size r g b).1 ≤ 1) ∧
    (0 ≤ (lutEntry c size r g b).2.1 ∧ (lutEntry c size r g b).2.1 ≤ 1) ∧
    (0 ≤ (lutEntry c size r g b).2.2 ∧ (lutEntry c size r g b).2.2 ≤ 1) := by
  have hts := toneStage_mem (lutToneCurve c) size r g b h2 hr hg hb hp
  have htp := tempStage_mem (isWarm c) (isCool c) _ hts.1 hts.2.1 hts.2.2
  have hsh := shadowStage_mem (hasTealShadows c) (gridLuminance size r g b) _
    htp.1 htp.2.1 htp.2.2
  have hhl := highlightStage_mem (hasWarmHighlights c) (gridLuminance size r g b) _
    hsh.1 hsh.2.1 hsh.2.2
  exact hhl

lemma digitChar_isDigit (m : ℕ) : 48 ≤ (digitChar m).toNat ∧ (digitChar m).toNat ≤ 57 := by
  rw [digitChar]
  have hk : m % 10 < 10 := Nat.mod_lt _ (by norm_num)
  set k := m % 10 with hkdef
  interval_cases k <;> decide

lemma toFixed6_shape (q : ℚ) (h0 : 0 ≤ q) (h1 : q ≤ 1) : sixDecShape (toFixed6 q) := by
  have hr0 : 0 ≤ round (q * 1000000) := by
    rw [round_eq]
    exact Int.floor_nonneg.mpr (by positivity)
  have hr1 : round (q * 1000000) ≤ 1000000 := by
    rw [round_eq]
    have hmul : q * 1000000 ≤ 1000000 := by nlinarith
    calc ⌊q * 1000000 + 1 / 2⌋ ≤ ⌊(1000000 : ℚ) + 1 / 2⌋ :=
          Int.floor_le_floor (by linarith)
      _ = 1000000 := by norm_num
  set n : ℕ := (round (q * 1000000)).toNat with hn
  have hn1 : n ≤ 1000000 := by omega
  refine ⟨(Nat.repr (n / 1000000)).data, (pad6 (n % 1000000)).data, ?_, ?_, ?_, ?_, ?_⟩
  · show (toFixed6 q).data = _
    rw [toFixed6]
    rw [← hn]
    simp only [String.data_append]
    simp
  · have : n / 1000000 = 0 ∨ n / 1000000 = 1 := by omega
    rcases this with h | h <;> rw [h] <;> decide
  · have : n / 1000000 = 0 ∨ n / 1000000 = 1 := by omega
    rcases this with h | h <;> rw [h] <;> decide
  · rfl
  · intro ch hch
    have : ch = digitChar (n % 1000000 / 100000) ∨ ch = digitChar (n % 1000000 / 10000) ∨
        ch = digitChar (n % 1000000 / 1000) ∨ ch = digitChar (n % 1000000 / 100) ∨
        ch = digitChar (n % 1000000 / 10) ∨ ch = digitChar (n % 1000000) := by
      simpa [pad6] using hch
    rcases this with h | h | h | h | h | h <;> rw [h] <;> exact digitChar_isDigit _

lemma length_flatMap_range {α : Type} (f : ℕ → List α) (k n : ℕ)
    (h : ∀ i, (f i).length = k) : ((List.range n).flatMap f).length = n * k := by
  induction n with
  | zero => simp
  | succ n ih =>
    rw [List.range_succ, List.flatMap_append]
    simp [ih, h, Nat.succ_mul]

lemma getElem?_flatMap_range {α : Type} (f : ℕ → List α) (k n q r : ℕ)
    (hlen : ∀ i, (f i).length = k) (hq : q < n) (hr : r < k) :
    ((List.range n).flatMap f)[q * k + r]? = (f q)[r]? := by
  induction n with
  | zero => omega
  | succ n ih =>
    rw [List.range_succ, List.flatMap_append]
    have hlen' : ((List.range n).flatMap f).length = n * k := length_flatMap_range f k n hlen
    by_cases hq' : q < n
    · have hlt : q * k + r < ((List.range n).flatMap f).length := by
        rw [hlen']
        have hm : q * k + k ≤ n * k := by
          have := Nat.mul_le_mul_right k hq'
          rwa [Nat.succ_mul] at this
        omega
      rw [List.getElem?_append_left hlt]
      exact ih hq'
    · have hqn : q = n := by omega
      subst hqn
      have hge : ((List.range q).flatMap f).length ≤ q * k + r := by rw [hlen']; omega
      rw [List.getElem?_append_right hge, hlen']
      have hidx : q * k + r - q * k = r := by omega
      rw [hidx]
      simp

lemma curveTail_agree (l : List (ℚ × ℚ)) :
    ∀ (isFirst : Bool) (prev : ℚ × ℚ),
      CameraPanel.curveTail isFirst prev l = Part002.curveTail isFirst prev l := by
  induction l with
  | nil => intro _ _; rfl
  | cons curr rest ih =>
    intro isFirst prev
    simp only [CameraPanel.curveTail, Part002.curveTail, ih]

/-- C1: for every ColorEstimate whose tone curve is present with control
points in [0,100]² and contains the anchors (0,0) and (100,100), the size-17
LUT text is the header followed by exactly 17³ = 4913 data lines, each of
which is three space-separated fixed-precision (6-decimal) tokens whose
underlying channel values lie in [0,1]. -/
theorem lut_structural_correctness (c : ColorEstimate) (tc : List (ℚ × ℚ))
    (htc : c.toneCurve = some tc)
    (hpts : ∀ p ∈ tc, 0 ≤ p.1 ∧ p.1 ≤ 100 ∧ 0 ≤ p.2 ∧ p.2 ≤ 100)
    (ha0 : ((0:ℚ), (0:ℚ)) ∈ tc) (ha1 : ((100:ℚ), (100:ℚ)) ∈ tc) :
    (lutLines c 17).length = 4913 ∧
    downloadLUTContent c 17
      = lutHeader 17 ++ String.join ((lutLines c 17).map (fun l => l ++ "\n")) ∧
    ∀ line ∈ lutLines c 17, ∃ x y z : ℚ,
      line = toFixed6 x ++ " " ++ toFixed6 y ++ " " ++ toFixed6 z ∧
      (0 ≤ x ∧ x ≤ 1) ∧ (0 ≤ y ∧ y ≤ 1) ∧ (0 ≤ z ∧ z ≤ 1) ∧
      sixDecShape (toFixed6 x) ∧ sixDecShape (toFixed6 y) ∧ sixDecShape (toFixed6 z) := by
  have hcurve : lutToneCurve c = tc := by rw [lutToneCurve, htc]; rfl
  have hpts' : ∀ p ∈ lutToneCurve c, 0 ≤ p.1 ∧ p.1 ≤ 100 ∧ 0 ≤ p.2 ∧ p.2 ≤ 100 := by
    rw [hcurve]; exact hpts
  refine ⟨?_, rfl, ?_⟩
  · rw [lutLines]
    rw [length_flatMap_range _ (17 * 17) 17
      (fun b => length_flatMap_range _ 17 17 (fun g => by simp))]
  · intro line hline
    rw [lutLines] at hline
    simp only [List.mem_flatMap, List.mem_map, List.mem_range] at hline
    obtain ⟨b, hb, g, hg, r, hr, rfl⟩ := hline
    have hm := lutEntry_mem c 17 r g b (by norm_num) hr hg hb hpts'
    exact ⟨(lutEntry c 17 r g b).1, (lutEntry c 17 r g b).2.1, (lutEntry c 17 r g b).2.2,
      rfl, hm.1, hm.2.1, hm.2.2,
      toFixed6_shape _ hm.1.1 hm.1.2, toFixed6_shape _ hm.2.1.1 hm.2.1.2,
      toFixed6_shape _ hm.2.2.1 hm.2.2.2⟩

theorem lut_structural_correctness_witness : (lutLines cWitA 17).length = 4913 :=
  (lut_structural_correctness cWitA [(0, 0), (50, 50), (100, 100)] rfl
    (by decide) (by decide) (by decide)).1

/-- C2: the LUT text is a pure function of the fields `downloadLUT` reads
(temperature, shadows, highlights, toneCurve): two estimates that agree on
those fields produce byte-identical `.cube` text, whatever their other
fields are — so identical input always produces identical output. -/
theorem lut_deterministic (c₁ c₂ : ColorEstimate) (size : ℕ)
    (ht : c₁.temperature = c₂.temperature) (hs : c₁.shadows = c₂.shadows)
    (hh : c₁.highlights = c₂.highlights) (hc : c₁.toneCurve = c₂.toneCurve) :
    downloadLUTContent c₁ size = downloadLUTContent c₂ size := by
  unfold downloadLUTContent lutLines lutLine lutEntry isWarm isCool hasTealShadows
    hasWarmHighlights lutToneCurve
  rw [ht, hs, hh, hc]

theorem lut_deterministic_witness : downloadLUTContent cWitA 17 = downloadLUTContent cWitB 17 :=
  lut_deterministic cWitA cWitB 17 rfl rfl rfl rfl

/-- C3: with the identity tone curve [[0,0],[100,100]], a temperature label
that is neither warm nor cool, no teal-shadow label and no warm-highlight
label, every LUT entry equals its normalized grid coordinate exactly (hence
within any tolerance). -/
theorem lut_identity_curve (c : ColorEstimate)
    (htc : c.toneCurve = some [(0, 0), (100, 100)])
    (hw : isWarm c = false) (hc : isCool c = false)
    (hts : hasTealShadows c = false) (hwh : hasWarmHighlights c = false)
    (r g b : ℕ) (hr : r < 17) (hg : g < 17) (hb : b < 17) :
    lutEntry c 17 r g b = (gridCoord 17 r, gridCoord 17 g, gridCoord 17 b) := by
  have hcurve : lutToneCurve c = [(0, 0), (100, 100)] := by rw [lutToneCurve, htc]; rfl
  have h2 : (2:ℕ) ≤ 17 := by norm_num
  have hl0 := gridLuminance_nonneg 17 r g b h2
  have hl1 := gridLuminance_le_one 17 r g b h2 hr hg hb
  have hscan : applyToneCurve [((0:ℚ), 0), (100, 100)] (gridLuminance 17 r g b)
      = gridLuminance 17 r g b := by
    rw [applyToneCurve]
    simp only [atcScan]
    rw [if_pos ⟨by linarith, by linarith⟩]
    ring
  rw [lutEntry, hw, hc, hts, hwh, hcurve]
  rw [shadowStage, highlightStage, tempStage]
  simp only [Bool.false_eq_true, false_and, if_false, if_neg (fun h => h)]
  rw [toneStage, curveMultiplier, hscan, lutDenom]
  by_cases hz : gridLuminance 17 r g b = 0
  · rw [if_pos hz, hz, zero_div]
    have e1 : 0 ≤ (0.587:ℚ) * gridCoord 17 g :=
      mul_nonneg (by norm_num) (gridCoord_nonneg 17 g h2)
    have e2 : 0 ≤ (0.114:ℚ) * gridCoord 17 b :=
      mul_nonneg (by norm_num) (gridCoord_nonneg 17 b h2)
    have e3 : 0 ≤ (0.299:ℚ) * gridCoord 17 r :=
      mul_nonneg (by norm_num) (gridCoord_nonneg 17 r h2)
    have hz' := hz
    rw [gridLuminance] at hz'
    have hcr : gridCoord 17 r = 0 := by
      have hle : gridCoord 17 r ≤ 0 := by nlinarith
      exact le_antisymm hle (gridCoord_nonneg 17 r h2)
    have hcg : gridCoord 17 g = 0 := by
      have hle : gridCoord 17 g ≤ 0 := by nlinarith
      exact le_antisymm hle (gridCoord_nonneg 17 g h2)
    have hcb : gridCoord 17 b = 0 := by
      have hle : gridCoord 17 b ≤ 0 := by nlinarith
      exact le_antisymm hle (gridCoord_nonneg 17 b h2)
    rw [hcr, hcg, hcb]
    norm_num
  · rw [if_neg hz, div_self hz]
    rw [mul_one, mul_one, mul_one]
    rw [min_eq_right (gridCoord_le_one 17 r h2 hr),
      min_eq_right (gridCoord_le_one 17 g h2 hg),
      min_eq_right (gridCoord_le_one 17 b h2 hb)]

theorem lut_identity_curve_witness :
    lutEntry cWitN 17 3 4 5 = (gridCoord 17 3, gridCoord 17 4, gridCoord 17 5) :=
  lut_identity_curve cWitN rfl (by decide) (by decide) (by decide) (by decide)
    3 4 5 (by norm_num) (by norm_num) (by norm_num)

/-- C4 (amended): `applyToneCurve` returns the input value exactly when no
adjacent pair of control points brackets the rescaled input, and performs
linear interpolation on the first bracketing pair when that pair has
positive width; a zero-width first bracketing pair instead hits a division
by zero (see the counterexample), so the fallback does not cover it. -/
theorem applyToneCurve_cases (tc : List (ℚ × ℚ)) (L : ℚ) :
    (firstBracket (L * 100) tc = none → applyToneCurve tc L = L) ∧
    (∀ p q, firstBracket (L * 100) tc = some (p, q) → p.1 < q.1 →
      applyToneCurve tc L
        = (p.2 + (L * 100 - p.1) / (q.1 - p.1) * (q.2 - p.2)) / 100) := by
  rw [applyToneCurve]
  induction tc with
  | nil => simp [firstBracket, atcScan]
  | cons p0 tail ih =>
    cases tail with
    | nil => simp [firstBracket, atcScan]
    | cons q0 rest =>
      by_cases h : p0.1 ≤ L * 100 ∧ L * 100 ≤ q0.1
      · constructor
        · intro hnone
          rw [firstBracket, if_pos h] at hnone
          exact absurd hnone (by simp)
        · intro p q hsome _
          rw [firstBracket, if_pos h] at hsome
          have hp : p0 = p ∧ q0 = q := by
            constructor <;> [exact congrArg Prod.fst (Option.some.inj hsome);
              exact congrArg Prod.snd (Option.some.inj hsome)]
          obtain ⟨rfl, rfl⟩ := hp
          simp only [atcScan, if_pos h]
      · constructor
        · intro hnone
          rw [firstBracket, if_neg h] at hnone
          simp only [atcScan, if_neg h]
          exact ih.1 hnone
        · intro p q hsome hlt
          rw [firstBracket, if_neg h] at hsome
          simp only [atcScan, if_neg h]
          exact ih.2 p q hsome hlt

theorem applyToneCurve_cases_witness :
    applyToneCurve [((50:ℚ), 20), (60, 30)] 0 = 0 ∧
    applyToneCurve [((0:ℚ), 0), (100, 100)] (1/4)
      = (0 + (1/4 * 100 - 0) / (100 - 0) * (100 - 0)) / 100 := by
  constructor
  · exact (applyToneCurve_cases [((50:ℚ), 20), (60, 30)] 0).1 (by norm_num [firstBracket])
  · exact (applyToneCurve_cases [((0:ℚ), 0), (100, 100)] (1/4)).2 (0, 0) (100, 100)
      (by norm_num [firstBracket]) (by norm_num)

/-- C4 counterexample: a tone curve whose first bracketing pair at input 0
has zero width ([[0,30],[0,0],[100,100]] is even non-decreasing in x and
contains both anchors); the claimed fallback to the input value fails:
the embedded code returns 30/100 = 3/10 (and the JavaScript original would
produce NaN from the 0/0), not the input 0. -/
theorem applyToneCurve_zero_width_cex :
    firstBracket (0 * 100) [((0:ℚ), 30), (0, 0), (100, 100)] = some ((0, 30), (0, 0)) ∧
    applyToneCurve [((0:ℚ), 30), (0, 0), (100, 100)] 0 = 3 / 10 ∧
    applyToneCurve [((0:ℚ), 30), (0, 0), (100, 100)] 0 ≠ 0 := by
  refine ⟨?_, ?_, ?_⟩
  · norm_num [firstBracket]
  · norm_num [applyToneCurve, atcScan]
  · norm_num [applyToneCurve, atcScan]

/-- C5: the curve-multiplier denominator is never zero on the grid: it is
the luminance when the luminance is nonzero and 0.001 when the luminance is
exactly zero, in particular at the all-black corner (0,0,0). -/
theorem lutDenom_never_zero (size r g b : ℕ)
    (hr : r < size) (hg : g < size) (hb : b < size) :
    lutDenom size r g b ≠ 0 ∧
    (gridLuminance size r g b ≠ 0 → lutDenom size r g b = gridLuminance size r g b) ∧
    (gridLuminance size r g b = 0 → lutDenom size r g b = 0.001) ∧
    gridLuminance 17 0 0 0 = 0 ∧ lutDenom 17 0 0 0 = 0.001 := by
    refine ⟨?_, ?_, ?_, ?_, ?_⟩
    · rw [lutDenom]
      split
      · norm_num
      · assumption
    · intro h; rw [lutDenom, if_neg h]
    · intro h; rw [lutDenom, if_pos h]
    · norm_num [gridLuminance, gridCoord]
    · norm_num [lutDenom, gridLuminance, gridCoord]

theorem lutDenom_never_zero_witness : lutDenom 17 0 0 0 ≠ 0 :=
  (lutDenom_never_zero 17 0 0 0 (by norm_num) (by norm_num) (by norm_num)).1

/-- C6: the data lines are emitted blue-major, green-mid, red-minor: the
0-based data line at index b·size² + g·size + r is the serialized triple of
grid coordinate (r,g,b). -/
theorem lut_iteration_order (c : ColorEstimate) (size r g b : ℕ)
    (hr : r < size) (hg : g < size) (hb : b < size) :
    (lutLines c size)[b * size * size + g * size + r]? = some (lutLine c size r g b) := by
  have hplane : ∀ bb, ((List.range size).flatMap
      (fun gg => (List.range size).map (fun rr => lutLine c size rr gg bb))).length
        = size * size :=
    fun bb => length_flatMap_range _ size size (fun gg => by simp)
  have hidx : b * size * size + g * size + r = b * (size * size) + (g * size + r) := by ring
  have hinner : g * size + r < size * size := by
    have hm := Nat.mul_le_mul_right size hg
    rw [Nat.succ_mul] at hm
    omega
  rw [lutLines, hidx]
  rw [getElem?_flatMap_range _ (size * size) size b (g * size + r) hplane hb hinner]
  rw [getElem?_flatMap_range _ size size g r (fun gg => by simp) hg hr]
  rw [List.getElem?_map, List.getElem?_range hr]
  rfl

theorem lut_iteration_order_witness :
    (lutLines cWitA 17)[5 * 17 * 17 + 3 * 17 + 2]? = some (lutLine cWitA 17 2 3 5) :=
  lut_iteration_order cWitA 17 2 3 5 (by norm_num) (by norm_num) (by norm_num)

/-- C7: on the post-tone-curve triple of any grid point, the temperature
step multiplies red by 1.05 and blue by 0.95 (results clamped at 1) when
warm, the inverse (red × 0.95, blue × 1.05, clamped at 1) when cool, leaves
the triple unchanged when neutral, and never changes green. -/
theorem tempStage_spec (c : ColorEstimate) (size r g b : ℕ) (v : ℚ × ℚ × ℚ)
    (hsize : 2 ≤ size) (hr : r < size) (hg : g < size) (hb : b < size)
    (hpts : ∀ p ∈ lutToneCurve c, 0 ≤ p.1 ∧ p.1 ≤ 100 ∧ 0 ≤ p.2 ∧ p.2 ≤ 100)
    (hv : v = toneStage (lutToneCurve c) size r g b) :
    (isWarm c = true → tempStage (isWarm c) (isCool c) v
        = (min 1 (v.1 * 1.05), v.2.1, min 1 (v.2.2 * 0.95))) ∧
    (isWarm c = false → isCool c = true → tempStage (isWarm c) (isCool c) v
        = (min 1 (v.1 * 0.95), v.2.1, min 1 (v.2.2 * 1.05))) ∧
    (isWarm c = false → isCool c = false → tempStage (isWarm c) (isCool c) v = v) ∧
    (tempStage (isWarm c) (isCool c) v).2.1 = v.2.1 := by
  have hm := toneStage_mem (lutToneCurve c) size r g b hsize hr hg hb hpts
  rw [← hv] at hm
  refine ⟨?_, ?_, ?_, ?_⟩
  · intro hwarm
    rw [tempStage, if_pos hwarm]
    have : min 1 (v.2.2 * 0.95) = v.2.2 * 0.95 :=
      min_eq_right (by nlinarith [hm.2.2.1, hm.2.2.2])
    rw [this]
  · intro hwarm hcool
    rw [tempStage, if_neg (by simp [hwarm]), if_pos hcool]
    have : min 1 (v.1 * 0.95) = v.1 * 0.95 :=
      min_eq_right (by nlinarith [hm.1.1, hm.1.2])
    rw [this]
  · intro hwarm hcool
    rw [tempStage, if_neg (by simp [hwarm]), if_neg (by simp [hcool])]
  · rw [tempStage]
    split
    · rfl
    · split <;> rfl

theorem tempStage_spec_witness :
    tempStage (isWarm cWitA) (isCool cWitA) (toneStage (lutToneCurve cWitA) 17 1 2 3)
      = (min 1 ((toneStage (lutToneCurve cWitA) 17 1 2 3).1 * 1.05),
         (toneStage (lutToneCurve cWitA) 17 1 2 3).2.1,
         min 1 ((toneStage (lutToneCurve cWitA) 17 1 2 3).2.2 * 0.95)) :=
  (tempStage_spec cWitA 17 1 2 3 (toneStage (lutToneCurve cWitA) 17 1 2 3)
    (by norm_num) (by norm_num) (by norm_num) (by norm_num) (by decide) rfl).1 (by decide)

/-- C8: with a teal-shadow label, every grid point of luminance < 0.4 gets
green and blue offsets proportional to (0.4 − luminance)/0.4, clamped to
[0,1]; with a warm-highlight label, every grid point of luminance > 0.6
gets a red offset proportional to (luminance − 0.6)/0.4, clamped to [0,1];
and points with luminance in [0.4, 0.6] are unchanged by both steps. -/
theorem tintStages_spec (c : ColorEstimate) (size r g b : ℕ) (vt vs vh : ℚ × ℚ × ℚ)
    (hsize : 2 ≤ size) (hr : r < size) (hg : g < size) (hb : b < size)
    (hpts : ∀ p ∈ lutToneCurve c, 0 ≤ p.1 ∧ p.1 ≤ 100 ∧ 0 ≤ p.2 ∧ p.2 ≤ 100)
    (hvt : vt = tempStage (isWarm c) (isCool c) (toneStage (lutToneCurve c) size r g b))
    (hvs : vs = shadowStage (hasTealShadows c) (gridLuminance size r g b) vt)
    (hvh : vh = highlightStage (hasWarmHighlights c) (gridLuminance size r g b) vs) :
    (hasTealShadows c = true → gridLuminance size r g b < 0.4 →
      vs = (vt.1,
            min 1 (vt.2.1 + (0.4 - gridLuminance size r g b) / 0.4 * 0.03),
            min 1 (vt.2.2 + (0.4 - gridLuminance size r g b) / 0.4 * 0.05)) ∧
      (0 ≤ vs.1 ∧ vs.1 ≤ 1) ∧ (0 ≤ vs.2.1 ∧ vs.2.1 ≤ 1) ∧ (0 ≤ vs.2.2 ∧ vs.2.2 ≤ 1)) ∧
    (hasWarmHighlights c = true → 0.6 < gridLuminance size r g b →
      vh = (min 1 (vs.1 + (gridLuminance size r g b - 0.6) / 0.4 * 0.03), vs.2.1, vs.2.2) ∧
      (0 ≤ vh.1 ∧ vh.1 ≤ 1) ∧ (0 ≤ vh.2.1 ∧ vh.2.1 ≤ 1) ∧ (0 ≤ vh.2.2 ∧ vh.2.2 ≤ 1)) ∧
    (0.4 ≤ gridLuminance size r g b → gridLuminance size r g b ≤ 0.6 →
      vs = vt ∧ vh = vs) := by
  have hts := toneStage_mem (lutToneCurve c) size r g b hsize hr hg hb hpts
  have htp := tempStage_mem (isWarm c) (isCool c) _ hts.1 hts.2.1 hts.2.2
  rw [← hvt] at htp
  have hsh := shadowStage_mem (hasTealShadows c) (gridLuminance size r g b) vt
    htp.1 htp.2.1 htp.2.2
  rw [← hvs] at hsh
  have hhl := highlightStage_mem (hasWarmHighlights c) (gridLuminance size r g b) vs
    hsh.1 hsh.2.1 hsh.2.2
  rw [← hvh] at hhl
  refine ⟨?_, ?_, ?_⟩
  · intro hteal hlow
    refine ⟨?_, hsh.1, hsh.2.1, hsh.2.2⟩
    rw [hvs, shadowStage, if_pos ⟨by rw [hteal], hlow⟩]
  · intro hwarmH hhigh
    refine ⟨?_, hhl.1, hhl.2.1, hhl.2.2⟩
    rw [hvh, highlightStage, if_pos ⟨by rw [hwarmH], hhigh⟩]
  · intro h4 h6
    constructor
    · rw [hvs, shadowStage, if_neg (fun hcon => absurd hcon.2 (by linarith))]
    · rw [hvh, highlightStage, if_neg (fun hcon => absurd hcon.2 (by linarith))]

theorem tintStages_spec_witness :
    vsA = (vtA.1,
           min 1 (vtA.2.1 + (0.4 - gridLuminance 17 0 0 0) / 0.4 * 0.03),
           min 1 (vtA.2.2 + (0.4 - gridLuminance 17 0 0 0) / 0.4 * 0.05)) ∧
    (0 ≤ vsA.1 ∧ vsA.1 ≤ 1) ∧ (0 ≤ vsA.2.1 ∧ vsA.2.1 ≤ 1) ∧ (0 ≤ vsA.2.2 ∧ vsA.2.2 ≤ 1) :=
  (tintStages_spec cWitA 17 0 0 0 vtA vsA vhA (by norm_num) (by norm_num) (by norm_num)
    (by norm_num) (by decide) rfl rfl rfl).1 (by decide)
    (by norm_num [gridLuminance, gridCoord])

/-- C9: the two source copies of `generateCurvePath` — in CameraPanel.jsx
and in src/unnamed/part_002 — agree on every input: null/undefined or any
list of control points. -/
theorem generateCurvePath_copies_agree (pts : Option (List (ℚ × ℚ))) :
    CameraPanel.generateCurvePath pts = Part002.generateCurvePath pts := by
  cases pts with
  | none => rfl
  | some l =>
    cases l with
    | nil => rfl
    | cons p rest =>
      rw [CameraPanel.generateCurvePath, Part002.generateCurvePath]
      split
      · rfl
      · rw [curveTail_agree]

/-- C10: a null/undefined points argument, or one with fewer than two
points, yields the fixed linear fallback path, and with at least two points
the returned path starts at the first control point with its y coordinate
flipped to 100 − y. -/
theorem generateCurvePath_fallback_start :
    (CameraPanel.generateCurvePath none = "M 0 100 L 100 0") ∧
    (∀ l : List (ℚ × ℚ), l.length < 2 →
      CameraPanel.generateCurvePath (some l) = "M 0 100 L 100 0") ∧
    (∀ (p0 p1 : ℚ × ℚ) (rest : List (ℚ × ℚ)), ∃ tail : String,
      CameraPanel.generateCurvePath (some (p0 :: p1 :: rest))
        = "M " ++ jsNumToString p0.1 ++ " " ++ jsNumToString (100 - p0.2) ++ tail) := by
  refine ⟨rfl, ?_, ?_⟩
  · intro l hl
    cases l with
    | nil => rfl
    | cons p rest =>
      rw [CameraPanel.generateCurvePath, if_pos hl]
  · intro p0 p1 rest
    refine ⟨CameraPanel.curveTail true (p0.1, 100 - p0.2)
      ((p1 :: rest).map (fun pt => (pt.1, 100 - pt.2))), ?_⟩
    have hlen : ¬ ((p0 :: p1 :: rest).length < 2) := by simp
    rw [CameraPanel.generateCurvePath, if_neg hlen]

theorem generateCurvePath_fallback_start_witness :
    CameraPanel.generateCurvePath (some [((0:ℚ), (0:ℚ))]) = "M 0 100 L 100 0" ∧
    ∃ tail : String, CameraPanel.generateCurvePath (some [((0:ℚ), (0:ℚ)), (100, 100)])
      = "M " ++ jsNumToString 0 ++ " " ++ jsNumToString (100 - 0) ++ tail :=
  ⟨generateCurvePath_fallback_start.2.1 [((0:ℚ), (0:ℚ))] (by norm_num),
   generateCurvePath_fallback_start.2.2 ((0:ℚ), (0:ℚ)) ((100:ℚ), (100:ℚ)) []⟩
